import Mathlib

/-!
# Verification of the MCP cognitive-observability proxy against its specification

This development gives a shallow embedding, in Lean 4, of the core algorithms of
the `mcp_audit` package (stdio proxy forwarding/capture, timeline correlator,
cognitive-load scorer, config rewriter, recursive-config unwrapping) and proves
or refutes the specification's quantified invariants about them.

Conventions of the embedding:
* Python strings are Lean `String`s; Python `str.strip()` is `py_strip`;
  Python substring tests (`a in b`) are the executable `has_sub` below.
* Timestamps are rational numbers of seconds since an arbitrary epoch
  (`datetime` arithmetic is exact on this model); float scores are `ℚ`.
* Python `None` on optional fields is `Option.none`; `dict` payloads are the
  inductive JSON-like value `PVal`.
* Fallible operations (JSON parsing, list `.index`) return `Option`.
-/

namespace McpAudit

/-! ## String utilities

Executable substring / affix tests used to model Python's `in`,
`str.startswith` and `str.endswith` on `String`s. -/

/-- `matches_at pat s`: the character list `pat` is an initial segment of `s`. -/
def matches_at : List Char → List Char → Bool
  | [], _ => true
  | _ :: _, [] => false
  | a :: as, b :: bs => a == b && matches_at as bs

/-- `has_sub_chars pat s`: `pat` occurs contiguously somewhere inside `s`. -/
def has_sub_chars (pat : List Char) : List Char → Bool
  | [] => matches_at pat []
  | c :: cs => matches_at pat (c :: cs) || has_sub_chars pat cs

/-- Python `pat in s` (substring containment). -/
def has_sub (s pat : String) : Bool := has_sub_chars pat.data s.data

/-- Python `s.startswith pat`. -/
def str_starts (s pat : String) : Bool := matches_at pat.data s.data

/-- Python `s.endswith pat`. -/
def str_ends (s pat : String) : Bool := matches_at pat.data.reverse s.data.reverse

/-- Python truthiness of an optional string (`None` and `""` are falsy). -/
def truthy_opt : Option String → Bool
  | none => false
  | some s => s != ""

/-- Python `s.strip()`: drop leading and trailing whitespace. -/
def py_strip (s : String) : String :=
  ⟨((s.data.dropWhile Char.isWhitespace).reverse.dropWhile Char.isWhitespace).reverse⟩

/-- Python `s.lower()` (ASCII case folding, which covers every term list the
analyzer matches against). -/
def py_lower (s : String) : String := ⟨s.data.map Char.toLower⟩

/-- Splitting a character list on whitespace runs, dropping empty words
(Python `str.split()` with no argument). `acc` is the current word, reversed. -/
def split_ws_chars : List Char → List Char → List (List Char)
  | [], acc => if acc.isEmpty then [] else [acc.reverse]
  | c :: cs, acc =>
    if c.isWhitespace then
      if acc.isEmpty then split_ws_chars cs [] else acc.reverse :: split_ws_chars cs []
    else split_ws_chars cs (c :: acc)

/-- Python `len(s.split())`: number of whitespace-separated words. -/
def word_count (s : String) : Nat := (split_ws_chars s.data []).length

/-- Python `re.search(r"\d+", s)` as a Boolean: some decimal digit occurs. -/
def has_digit (s : String) : Bool := s.data.any Char.isDigit

/-! ## JSON-like payload values

Captured JSON-RPC payloads are Python dictionaries; the analyzers reach into
them with chained `.get` lookups. `PVal` models the parsed JSON values.
JSON arrays and other scalars are collapsed into `PVal.other`: no analyzed
code path distinguishes them (the dict-depth walk recurses into dict values
only, and lookups on non-dicts yield `None`). -/

inductive PVal where
  | null
  | boolv (b : Bool)
  | num (q : ℚ)
  | strv (s : String)
  | dict (entries : List (String × PVal))
  | other

/-- Association-list lookup for dict entries (first binding wins, as in a
Python dict where keys are unique). -/
def pentries_get (k : String) : List (String × PVal) → Option PVal
  | [] => none
  | (k0, v) :: rest => if k0 == k then some v else pentries_get k rest

/-- Python `payload.get(k)`: `None` when the payload is not a dict or the key
is absent. -/
def pval_get (p : PVal) (k : String) : Option PVal :=
  match p with
  | .dict es => pentries_get k es
  | _ => none

/-- Python `payload.get(k, {})`. -/
def pval_get_dict (p : PVal) (k : String) : PVal :=
  match pval_get p k with
  | some v => v
  | none => .dict []

/-- A `.get(k)` whose value is compared against a string: yields the string
when the stored value is one, `None`-like otherwise. -/
def pget_str (p : PVal) (k : String) : Option String :=
  match pval_get p k with
  | some (.strv s) => some s
  | _ => none

/-- `payload.get("result") is not None` (JSON `null` parses to Python `None`). -/
def payload_has_result (p : PVal) : Bool :=
  match pval_get p "result" with
  | none => false
  | some .null => false
  | some _ => true

/-- `isinstance(p, dict)`. -/
def is_pdict : PVal → Bool
  | .dict _ => true
  | _ => false

/-- Equality of primitive (non-container) JSON values; used to compare JSON-RPC
`id` values, which are numbers or strings. Containers never compare equal. -/
def pval_prim_eq : PVal → PVal → Bool
  | .null, .null => true
  | .boolv a, .boolv b => a == b
  | .num a, .num b => a == b
  | .strv a, .strv b => a == b
  | _, _ => false

/-! `CognitiveAnalyzer._calculate_dict_depth(d, current_depth)`: returns
`current_depth` on non-dicts; on dicts, the max over dict-valued entries of the
recursive depth at `current_depth + 1` (non-dict values, including lists, are
not traversed). `dict_depth_entries` is the loop over `d.values()`, with `acc`
the running `max_depth`. -/

mutual

def dict_depth : PVal → Nat → Nat
  | .dict entries, cur => dict_depth_entries entries cur cur
  | _, cur => cur

def dict_depth_entries : List (String × PVal) → Nat → Nat → Nat
  | [], _, acc => acc
  | (_, v) :: rest, cur, acc =>
    match v with
    | .dict es => dict_depth_entries rest cur (max acc (dict_depth (.dict es) (cur + 1)))
    | _ => dict_depth_entries rest cur acc

end

/-! Python `str(payload)` rendering, used by the configuration-friction scorer
only as the haystack of a lowercased keyword search
(`any(word in str(message.payload).lower() for word in [...])`). Dict/string
structure is rendered as Python does (`\x7bkey: value\x7d` with quoted keys);
numbers are rendered from the rational numerator (exact for the integer ids
and counts that occur in payloads); `other` (arrays etc.) renders as a
neutral token. -/

mutual

def py_str : PVal → String
  | .null => "None"
  | .boolv b => if b then "True" else "False"
  | .num q => toString q.num
  | .strv s => "\x27" ++ s ++ "\x27"
  | .dict es => "\x7b" ++ py_str_entries es ++ "\x7d"
  | .other => "[...]"

def py_str_entries : List (String × PVal) → String
  | [] => ""
  | [(k, v)] => "\x27" ++ k ++ "\x27: " ++ py_str v
  | (k, v) :: rest => "\x27" ++ k ++ "\x27: " ++ py_str v ++ ", " ++ py_str_entries rest

end

/-! ## Stdio proxy: transparent forwarding with capture
(`interceptors/mcp_proxy.py`, class `MCPProxy`)

Each forwarding path is a loop: `line = readline()`; `if not line: break`;
`await self._capture_message(line.strip(), direction)`; write `line` unchanged
to the opposite endpoint and flush.  `readline` returns the line *with* its
trailing newline and returns `""` exactly at EOF, so a run of the loop is a
function of the list of lines produced by successive `readline` calls.  The
result pair collects, in stream order, the lines written to the opposite
endpoint and the strings handed to `_capture_message` (the stripped copies). -/

/-- `MCPProxy._forward_stdin_to_server`: host stdin lines to child stdin. -/
def forward_stdin_to_server : List String → List String × List String
  | [] => ([], [])
  | line :: rest =>
    if line = "" then ([], [])
    else
      let r := forward_stdin_to_server rest
      (line :: r.1, py_strip line :: r.2)

/-- `MCPProxy._forward_server_to_stdout`: child stdout lines to host stdout. -/
def forward_server_to_stdout : List String → List String × List String
  | [] => ([], [])
  | line :: rest =>
    if line = "" then ([], [])
    else
      let r := forward_server_to_stdout rest
      (line :: r.1, py_strip line :: r.2)

/-! ## Message capture and the persisted audit record
(`MCPProxy._capture_message` and
`interceptors/mcp_proxy_runner.py::enhanced_audit_message_callback`) -/

/-- One captured `MCPMessageTrace` (`core/models.py`). `retry_attempt` is never
set on this path and is omitted. -/
structure TraceMsg where
  direction : String
  protocol : String
  payload : PVal
  timestamp : ℚ
  latencyMs : Option ℤ
  errorCode : Option String

/-- `MCPProxy._capture_message(message, direction)` evaluated at capture time
`now`.  `parsed` is the outcome of `json.loads(message)` (`none` models
`json.JSONDecodeError`, on which the message is skipped).  Blank messages are
skipped before parsing.  The constructed trace carries the capture timestamp
and `latency_ms=None`; `error_code` is not passed and stays `None`. -/
def capture_message (message : String) (parsed : Option PVal) (now : ℚ)
    (direction : String) : Option TraceMsg :=
  if py_strip message = "" then none
  else
    match parsed with
    | none => none
    | some json_data =>
      some { direction := direction, protocol := "JSON-RPC", payload := json_data,
             timestamp := now, latencyMs := none, errorCode := none }

/-- The `enhanced_context` sub-dict of a persisted audit record. -/
structure EnhancedContext where
  llmInitiated : Bool
  toolMethod : Option String
  toolName : Option String

/-- One line of `mcp_audit_messages.jsonl` as written by
`enhanced_audit_message_callback`. -/
structure AuditRecord where
  timestamp : ℚ
  serverName : String
  serverProcessId : ℕ
  direction : String
  protocol : String
  payload : PVal
  latencyMs : Option ℤ
  errorCode : Option String
  enhancedContext : EnhancedContext

/-- `enhanced_audit_message_callback(trace, server_name, server_process_id)`:
the JSON object appended for a captured trace.  `latency_ms` and `error_code`
are copied from the trace (`getattr(trace, ..., None)`).  Note the source
compares `trace.direction.value` against the underscored string
`"llm_to_mcp_client"`, which is embedded verbatim. -/
def enhanced_audit_message_callback (trace : TraceMsg) (server_name : String)
    (server_process_id : ℕ) : AuditRecord :=
  { timestamp := trace.timestamp
    serverName := server_name
    serverProcessId := server_process_id
    direction := trace.direction
    protocol := trace.protocol
    payload := trace.payload
    latencyMs := trace.latencyMs
    errorCode := trace.errorCode
    enhancedContext :=
      { llmInitiated := trace.direction == "llm_to_mcp_client"
        toolMethod := pget_str trace.payload "method"
        toolName :=
          if pget_str trace.payload "method" == some "tools/call" then
            pget_str (pval_get_dict trace.payload "params") "name"
          else none } }

/-! ## Timeline correlator (`tracing/timeline_analyzer.py`, `TimelineAnalyzer`)

Loaded events are dicts from the merged `mcp_audit` / `llm_decision` streams,
each tagged with a `parsed_timestamp` and a `source`.  `TEvent` carries exactly
the fields the grouping, success and summary code reads; absent dict keys are
`none` (the `.get` defaults are applied at each use site, as in the source). -/

structure TEvent where
  /-- `parsed_timestamp`, in seconds. -/
  timestamp : ℚ
  /-- `event.get('source')`: `"mcp_audit"` or `"llm_decision"`. -/
  source : String
  /-- `event.get('server_name')` (`'unknown'` default applied at use). -/
  serverName : Option String
  /-- `event.get('direction')`. -/
  direction : Option String
  /-- `event.get('payload', {})`. -/
  payload : PVal
  /-- `event.get('enhanced_context', {}).get('tool_name')`. -/
  enhancedToolName : Option String
  /-- `event.get('user_prompt')` (decision events). -/
  userPrompt : Option String
  /-- `event.get('llm_reasoning')` (decision events). -/
  llmReasoning : Option String
  /-- `event.get('success', False)` (decision events). -/
  success : Bool

/-- `TimelineAnalyzer._time_gap_seconds(event1, event2)`:
`(time2 - time1).total_seconds()`. -/
def time_gap_seconds (event1 event2 : TEvent) : ℚ :=
  event2.timestamp - event1.timestamp

/-- The event-grouping loop of `TimelineAnalyzer.group_into_flows`: walk the
events; start a new flow when the current flow is empty or the gap from the
current flow's last event exceeds the window `w` (`time_window_seconds`,
default 30); otherwise append to the current flow.  Returns the grouped runs
of events (the source wraps each run with `_create_flow_summary` as it is
emitted; that per-run wrapping is applied by `group_into_flows` below). -/
def group_aux (w : ℚ) : List TEvent → List TEvent → List (List TEvent)
  | current, [] => if current.isEmpty then [] else [current]
  | current, e :: rest =>
    match current.getLast? with
    | none => group_aux w [e] rest
    | some lastE =>
      if w < time_gap_seconds lastE e then current :: group_aux w [e] rest
      else group_aux w (current ++ [e]) rest

/-- The grouped event runs of `group_into_flows` (before summarisation). -/
def group_event_runs (w : ℚ) (timeline_events : List TEvent) : List (List TEvent) :=
  group_aux w [] timeline_events

/-- `'server' in event.get('direction', '')`. -/
def dir_contains_server (e : TEvent) : Bool :=
  match e.direction with
  | some d => has_sub d "server"
  | none => false

/-- `event.get('direction') == 'llm→mcp_client'` and
`event.get('payload', {}).get('method') == 'tools/call'`. -/
def is_tools_call_request (e : TEvent) : Bool :=
  e.direction == some "llm→mcp_client" && pget_str e.payload "method" == some "tools/call"

/-- `TimelineAnalyzer._determine_flow_success(flow_events)`: some decision
event succeeded, or the flow has both a `tools/call` request and some
server-direction event whose payload carries a non-`None` `result`. -/
def determine_flow_success (flow_events : List TEvent) : Bool :=
  let llm_success := flow_events.any fun e => e.source == "llm_decision" && e.success
  let has_tool_call := flow_events.any is_tools_call_request
  let has_response := flow_events.any fun e => dir_contains_server e && payload_has_result e.payload
  llm_success || (has_tool_call && has_response)

/-- One element of a flow summary's `mcp_calls` list. -/
structure McpCall where
  timestamp : ℚ
  server : String
  tool : Option String
  args : PVal

/-- A flow summary (`_create_flow_summary` output).  The purely presentational
`timeline` and `llm_decisions` projections and `user_timestamp` are omitted;
`flow_id` keeps the integral start-time from `f"flow_{int(...)}"`. -/
structure FlowSummary where
  flowId : ℤ
  startTime : ℚ
  endTime : ℚ
  durationMs : ℚ
  eventCount : ℕ
  serversInvolved : List String
  crossServerFlow : Bool
  hasUserContext : Bool
  userPrompt : Option String
  llmReasoning : Option String
  success : Bool
  mcpCalls : List McpCall

/-- The event walk of `_create_flow_summary`: threads the mutable state
`(user_prompt, llm_reasoning, mcp_calls, servers_involved)` through the events.
`servers_involved` is a Python `set`; it is modelled as a duplicate-free list
in first-insertion order. -/
def flow_scan : List TEvent → Option String → Option String → List McpCall →
    List String → Option String × Option String × List McpCall × List String
  | [], up, lr, calls, servers => (up, lr, calls, servers)
  | e :: rest, up, lr, calls, servers =>
    if e.source == "llm_decision" then
      if !truthy_opt up && truthy_opt e.userPrompt then
        flow_scan rest e.userPrompt (some (e.llmReasoning.getD "")) calls servers
      else flow_scan rest up lr calls servers
    else if e.source == "mcp_audit" then
      let server_name := e.serverName.getD "unknown"
      let servers1 := if servers.contains server_name then servers else servers ++ [server_name]
      if e.direction == some "user→llm" then
        if !truthy_opt up then
          flow_scan rest (pget_str e.payload "content") lr calls servers1
        else flow_scan rest up lr calls servers1
      else if is_tools_call_request e then
        let call : McpCall :=
          { timestamp := e.timestamp, server := server_name, tool := e.enhancedToolName,
            args := pval_get_dict (pval_get_dict e.payload "params") "arguments" }
        flow_scan rest up lr (calls ++ [call]) servers1
      else flow_scan rest up lr calls servers1
    else flow_scan rest up lr calls servers

/-- `TimelineAnalyzer._create_flow_summary(flow_events)`.  The source returns
`{}` on an empty input, which never occurs (grouped runs are nonempty);
modelled as `none`. -/
def create_flow_summary (flow_events : List TEvent) : Option FlowSummary :=
  match flow_events with
  | [] => none
  | e0 :: rest =>
    let start_time := e0.timestamp
    let end_time := ((e0 :: rest).getLast (by simp)).timestamp
    let scan := flow_scan (e0 :: rest) none none [] []
    some
      { flowId := ⌊start_time⌋
        startTime := start_time
        endTime := end_time
        durationMs := (end_time - start_time) * 1000
        eventCount := (e0 :: rest).length
        serversInvolved := scan.2.2.2
        crossServerFlow := 1 < scan.2.2.2.length
        hasUserContext := scan.1.isSome
        userPrompt := scan.1
        llmReasoning := scan.2.1
        success := determine_flow_success (e0 :: rest)
        mcpCalls := scan.2.2.1 }

/-- `TimelineAnalyzer.group_into_flows(timeline_events)`: the grouped runs,
each summarised. -/
def group_into_flows (w : ℚ) (timeline_events : List TEvent) : List FlowSummary :=
  (group_event_runs w timeline_events).filterMap create_flow_summary

/-- Flow success as the specification states it (I7): some decision event
succeeded, or the flow has both a `tools/call` request and a *corresponding*
non-error response to that request — a server-direction event whose payload
has a non-`None` `result`, no `error`, and the same JSON-RPC `id` as the
request.  This definition follows the spec's words; the source's
`_determine_flow_success` is the authority it is compared against. -/
def flow_success_per_claim (flow_events : List TEvent) : Bool :=
  (flow_events.any fun e => e.source == "llm_decision" && e.success) ||
  (flow_events.any fun e =>
    is_tools_call_request e &&
    flow_events.any fun r =>
      dir_contains_server r && payload_has_result r.payload &&
      (pval_get r.payload "error").isNone &&
      (pval_get e.payload "id").isSome &&
      (match pval_get e.payload "id", pval_get r.payload "id" with
       | some a, some b => pval_prim_eq a b
       | _, _ => false))

/-! ## Flow → interaction conversion
(`TimelineAnalyzer._convert_flows_to_interactions`) -/

/-- `core/models.py::MCPInteraction`, restricted to the fields the cognitive
analyzer reads plus those the conversion sets. -/
structure Interaction where
  serverName : String
  userQuery : String
  startTime : ℚ
  endTime : ℚ
  messageTraces : List TraceMsg
  success : Bool
  totalLatencyMs : Option ℤ
  retryCount : ℕ

/-- The placeholder query used for inferred prompts. -/
def inferred_placeholder : String := "[Inferred] User request requiring tool usage"

/-- The `user_query` normalisation inside `_convert_flows_to_interactions`:
falsy, inferred, tool-discovery and unknown prompts are all mapped to the
inferred placeholder so they receive the base complexity score. -/
def convert_user_query (up : Option String) : String :=
  match up with
  | none => inferred_placeholder
  | some s =>
    if s = "" || s = inferred_placeholder || str_starts s "[Tool Discovery]"
        || s = "Unknown user request" then inferred_placeholder
    else s

/-- Python `int()` on the rational model of a float (exact on the integral
durations produced by the timeline; durations are nonnegative there, where
floor and truncation agree). -/
def py_int (q : ℚ) : ℤ := ⌊q⌋

/-- The per-flow body of `_convert_flows_to_interactions`: build one simplified
`MCPMessageTrace` per `mcp_call` (or a single flow-level trace when there are
none), each with `error_code=None`, and an `MCPInteraction` with
`retry_count=0`. -/
def convert_flow_to_interaction (flow : FlowSummary) : Interaction :=
  let duration_ms := flow.durationMs
  let latency : Option ℤ := if duration_ms ≠ 0 then some (py_int duration_ms) else none
  let server_name :=
    match flow.serversInvolved with
    | [] => "unknown"
    | s :: _ => s
  let call_traces : List TraceMsg := flow.mcpCalls.map fun call =>
    { direction := "llm→mcp_client"
      protocol := "JSON-RPC"
      payload := .dict
        [("method", match call.tool with | some t => .strv t | none => .null),
         ("params", call.args)]
      timestamp := flow.startTime
      latencyMs := latency
      errorCode := none }
  let message_traces : List TraceMsg :=
    if call_traces.isEmpty then
      [{ direction := "llm→mcp_client"
         protocol := "JSON-RPC"
         payload := .dict
           [("method", .strv "user_interaction"),
            ("flow_type", match flow.userPrompt with | some s => .strv s | none => .null)]
         timestamp := flow.startTime
         latencyMs := latency
         errorCode := none }]
    else call_traces
  { serverName := server_name
    userQuery := convert_user_query flow.userPrompt
    startTime := flow.startTime
    endTime := flow.endTime
    messageTraces := message_traces
    success := flow.success
    totalLatencyMs := some (py_int duration_ms)
    retryCount := 0 }

/-- `_convert_flows_to_interactions(flows)`. -/
def convert_flows_to_interactions (flows : List FlowSummary) : List Interaction :=
  flows.map convert_flow_to_interaction

/-! ## Cognitive-load scorer (`analyzers/cognitive_analyzer.py`,
`CognitiveAnalyzer`) -/

/-- `self.baseline_latency_ms` (15 seconds). -/
def baseline_latency_ms : ℚ := 15000

/-- The technical/domain-specific indicator terms. -/
def technical_indicators : List String :=
  ["api", "config", "authentication", "parameter", "endpoint", "json", "xml",
   "database", "query", "schema", "token", "oauth", "webhook", "integration",
   "middleware", "proxy", "cache", "sync", "async", "batch", "stream"]

/-- The conditional/complex-logic indicator terms. -/
def complexity_indicators : List String :=
  ["if", "when", "unless", "where", "filter", "sort", "group", "aggregate",
   "combine", "merge", "transform", "convert", "validate", "parse"]

/-- The action verbs indicating multi-step requests. -/
def action_verbs : List String :=
  ["create", "update", "delete", "get", "set", "add", "remove", "modify",
   "send", "receive", "upload", "download", "import", "export", "backup",
   "restore", "sync", "copy", "move", "rename", "list", "search", "find"]

/-- The temporal-reasoning words. -/
def time_words : List String :=
  ["today", "tomorrow", "yesterday", "week", "month", "year", "hour", "minute",
   "day", "now", "later", "before", "after", "since", "until"]

/-- The quantifier words of the numeric/quantitative check. -/
def quantifier_words : List String :=
  ["all", "every", "each", "most", "some", "many", "few"]

/-- `sum(1 for term in terms if term in query)`: how many terms of the list
occur as substrings of `query`. -/
def count_hits (terms : List String) (query : String) : ℕ :=
  (terms.filter fun term => has_sub query term).length

/-- The inferred/placeholder short-circuit of `_calculate_prompt_complexity`. -/
def is_inferred_query (query : String) : Bool :=
  has_sub query "[inferred]" || has_sub query "user request requiring" ||
  has_sub query "unknown" || (py_strip query).length < 3

/-- `CognitiveAnalyzer._calculate_prompt_complexity(interaction)`, as a
function of `interaction.user_query`.  The query is lowercased; inferred or
placeholder prompts return the base 20; otherwise bonuses accumulate from the
word count, technical-term hits (×8), logic-term hits (×10), action-verb hits
(`(count − 1) × 12` once more than two verbs hit), temporal words (+15) and
numeric/quantifier references (+10), capped at 100. -/
def calculate_prompt_complexity (user_query : String) : ℚ :=
  let query := py_lower user_query
  if is_inferred_query query then 20
  else
    let complexity0 : ℚ := 20
    let wc := word_count query
    let complexity1 :=
      if 10 < wc then complexity0 + 25
      else if 5 < wc then complexity0 + 15
      else if 2 < wc then complexity0 + 5
      else complexity0
    let technical_count := count_hits technical_indicators query
    let complexity2 := complexity1 + technical_count * 8
    let logic_count := count_hits complexity_indicators query
    let complexity3 := complexity2 + logic_count * 10
    let action_count := count_hits action_verbs query
    let complexity4 :=
      if 2 < action_count then complexity3 + ((action_count - 1 : ℕ) : ℚ) * 12
      else complexity3
    let complexity5 :=
      if time_words.any (fun wrd => has_sub query wrd) then complexity4 + 15
      else complexity4
    let complexity6 :=
      if has_digit query || quantifier_words.any (fun wrd => has_sub query wrd) then
        complexity5 + 10
      else complexity5
    min complexity6 100

/-- Direction-change counting loop of `_calculate_context_switching`; `last`
is the running `last_direction` (directions are enum values, always truthy). -/
def count_direction_changes : List TraceMsg → Option String → ℕ
  | [], _ => 0
  | m :: rest, last =>
    (if last.isSome && last != some m.direction then 1 else 0) +
      count_direction_changes rest (some m.direction)

/-- Method-transition counting loop of `_calculate_context_switching`; `last`
is the running `last_method`, updated only on truthy methods. -/
def count_tool_changes : List TraceMsg → Option String → ℕ
  | [], _ => 0
  | m :: rest, last =>
    let current := pget_str m.payload "method"
    let inc := if truthy_opt current && truthy_opt last && current != last then 1 else 0
    let last1 := if truthy_opt current then current else last
    inc + count_tool_changes rest last1

/-- `CognitiveAnalyzer._calculate_context_switching(interaction)`. -/
def calculate_context_switching (it : Interaction) : ℚ :=
  if it.messageTraces.length < 2 then 20
  else
    let switching : ℚ :=
      (count_direction_changes it.messageTraces none) * 10 +
      (count_tool_changes it.messageTraces none) * 15
    let switching1 := if switching = 0 then 5 else switching
    min switching1 100

/-- An error code counted by the retry-frustration scorer: truthy and either a
`4xx`/`5xx` HTTP class or one of the named transport errors. -/
def is_actual_error : Option String → Bool
  | none => false
  | some s =>
    s != "" && (str_starts s "4" || str_starts s "5" ||
      s == "timeout" || s == "connection_error" || s == "parse_error")

/-- The numeric entries of the retry-frustration breakdown dict (the
explanatory strings are omitted). -/
structure RetryBreakdown where
  baseScore : ℚ
  retryPenalty : ℚ
  retryCount : ℕ
  failurePenalty : ℚ
  failedInteraction : Bool
  errorPenalty : ℚ
  actualErrorCount : ℕ
  latencyPenalty : ℚ
  latencyMs : Option ℤ
  latencyThresholdMs : ℚ

/-- `CognitiveAnalyzer._calculate_retry_frustration(interaction)`: base 10,
+25 per retry, +40 on overall failure, +20 per hard-error trace, and a latency
penalty (+15 on success / +30 on failure) when the positive total latency
exceeds twice the baseline; capped at 100.  Returns `(score, breakdown)`. -/
def calculate_retry_frustration (it : Interaction) : ℚ × RetryBreakdown :=
  let retry_penalty : ℚ := if 0 < it.retryCount then (it.retryCount : ℚ) * 25 else 0
  let failure_penalty : ℚ := if it.success then 0 else 40
  let actual_error_count := it.messageTraces.countP fun m => is_actual_error m.errorCode
  let error_penalty : ℚ := (actual_error_count : ℚ) * 20
  let latency_penalty : ℚ :=
    match it.totalLatencyMs with
    | none => 0
    | some l =>
      if 0 < l ∧ baseline_latency_ms * 2 < (l : ℚ) then (if it.success then 15 else 30)
      else 0
  let score := min (10 + retry_penalty + failure_penalty + error_penalty + latency_penalty) 100
  (score,
   { baseScore := 10, retryPenalty := retry_penalty, retryCount := it.retryCount,
     failurePenalty := failure_penalty, failedInteraction := !it.success,
     errorPenalty := error_penalty, actualErrorCount := actual_error_count,
     latencyPenalty := latency_penalty, latencyMs := it.totalLatencyMs,
     latencyThresholdMs := baseline_latency_ms * 2 })

/-- The config-keyword test of `_calculate_configuration_friction`: keywords
searched in the lowercased Python rendering of the payload, counted only on
traces that carry a truthy `error_code` and a dict payload. -/
def config_keyword_hit (m : TraceMsg) : Bool :=
  truthy_opt m.errorCode && is_pdict m.payload &&
    (["api key", "token", "auth", "config"].any fun wrd =>
      has_sub (py_lower (py_str m.payload)) wrd)

/-- The numeric entries of the configuration-friction breakdown dict. -/
structure ConfigBreakdown where
  baseScore : ℚ
  authPenalty : ℚ
  paramPenalty : ℚ
  configKeywordPenalty : ℚ
  latencyPenalty : ℚ
  latencyMs : Option ℤ
  latencyThresholdMs : ℚ

/-- `CognitiveAnalyzer._calculate_configuration_friction(interaction)`: base
10, +50 per 401/403 trace, +30 per 400/422 trace, +35 per config-keyword hit
in error traces, and a latency penalty (+10 on success / +25 on failure) when
the total latency exceeds three times the baseline; capped at 100. -/
def calculate_configuration_friction (it : Interaction) : ℚ × ConfigBreakdown :=
  let auth_errors := it.messageTraces.countP fun m =>
    m.errorCode == some "401" || m.errorCode == some "403"
  let param_errors := it.messageTraces.countP fun m =>
    m.errorCode == some "400" || m.errorCode == some "422"
  let auth_penalty : ℚ := (auth_errors : ℚ) * 50
  let param_penalty : ℚ := (param_errors : ℚ) * 30
  let config_keyword_count := it.messageTraces.countP config_keyword_hit
  let config_keyword_penalty : ℚ := (config_keyword_count : ℚ) * 35
  let latency_penalty : ℚ :=
    match it.totalLatencyMs with
    | none => 0
    | some l =>
      if baseline_latency_ms * 3 < (l : ℚ) then (if it.success then 10 else 25)
      else 0
  let score := min (10 + auth_penalty + param_penalty + config_keyword_penalty + latency_penalty) 100
  (score,
   { baseScore := 10, authPenalty := auth_penalty, paramPenalty := param_penalty,
     configKeywordPenalty := config_keyword_penalty, latencyPenalty := latency_penalty,
     latencyMs := it.totalLatencyMs, latencyThresholdMs := baseline_latency_ms * 3 })

/-- `CognitiveAnalyzer._calculate_integration_cognition(interaction)`: base
20, +20 when more than one protocol, +10 per distinct direction, +15 per trace
whose dict payload nests deeper than 3; capped at 100. -/
def calculate_integration_cognition (it : Interaction) : ℚ :=
  let protocols := (it.messageTraces.map (fun m => m.protocol)).dedup
  let integration1 : ℚ := 20 + (if 1 < protocols.length then 20 else 0)
  let directions := (it.messageTraces.map (fun m => m.direction)).dedup
  let integration2 := integration1 + (directions.length : ℚ) * 10
  let deep_payloads := it.messageTraces.countP fun m =>
    is_pdict m.payload && 3 < dict_depth m.payload 0
  let integration3 := integration2 + (deep_payloads : ℚ) * 15
  min integration3 100

/-- The weights of `_calculate_overall_cognitive_load`. -/
def weight_prompt_complexity : ℚ := 0.15

def weight_context_switching : ℚ := 0.20

def weight_retry_frustration : ℚ := 0.30

def weight_configuration_friction : ℚ := 0.25

def weight_integration_cognition : ℚ := 0.10

/-- `CognitiveAnalyzer._calculate_overall_cognitive_load(...)`: the weighted
sum of the five sub-scores, capped at 100. -/
def calculate_overall_cognitive_load (prompt_complexity context_switching
    retry_frustration configuration_friction integration_cognition : ℚ) : ℚ :=
  min (prompt_complexity * weight_prompt_complexity +
       context_switching * weight_context_switching +
       retry_frustration * weight_retry_frustration +
       configuration_friction * weight_configuration_friction +
       integration_cognition * weight_integration_cognition) 100

/-- `core/models.py::CognitiveLoadMetrics` (numeric fields). -/
structure CognitiveLoadMetrics where
  overallScore : ℚ
  promptComplexity : ℚ
  contextSwitching : ℚ
  retryFrustration : ℚ
  configurationFriction : ℚ
  integrationCognition : ℚ
  retryBreakdown : RetryBreakdown
  configurationBreakdown : ConfigBreakdown

/-- `CognitiveAnalyzer.analyze_interaction(interaction)` (non-exceptional
path). -/
def analyze_interaction (it : Interaction) : CognitiveLoadMetrics :=
  let prompt_complexity := calculate_prompt_complexity it.userQuery
  let context_switching := calculate_context_switching it
  let retry := calculate_retry_frustration it
  let config := calculate_configuration_friction it
  let integration_cognition := calculate_integration_cognition it
  { overallScore := calculate_overall_cognitive_load prompt_complexity
      context_switching retry.1 config.1 integration_cognition
    promptComplexity := prompt_complexity
    contextSwitching := context_switching
    retryFrustration := retry.1
    configurationFriction := config.1
    integrationCognition := integration_cognition
    retryBreakdown := retry.2
    configurationBreakdown := config.2 }

/-- The letter-grade thresholds of
`TimelineAnalyzer.generate_cognitive_analysis`. -/
def grade_of (overall_score : ℚ) : String :=
  if overall_score ≤ 20 then "A"
  else if overall_score ≤ 40 then "B"
  else if overall_score ≤ 60 then "C"
  else if overall_score ≤ 80 then "D"
  else "F"

/-- The prompt-complexity formula exactly as claim C9 words it: base 20, word
count bonus, 8 per technical hit, 10 per logic hit, **12 per action-verb hit
beyond 2** (i.e. `(count − 2) × 12`), +15 for temporal words, +10 for
numeric/quantifier references, capped at 100; 20 for inferred prompts.  This
follows the claim's words and is compared against
`calculate_prompt_complexity`, the embedding of the source. -/
def prompt_complexity_per_claim (user_query : String) : ℚ :=
  let query := py_lower user_query
  if is_inferred_query query then 20
  else
    let wc := word_count query
    let word_bonus : ℚ := if 10 < wc then 25 else if 5 < wc then 15 else if 2 < wc then 5 else 0
    let technical_count := count_hits technical_indicators query
    let logic_count := count_hits complexity_indicators query
    let action_count := count_hits action_verbs query
    let action_bonus : ℚ :=
      if 2 < action_count then ((action_count - 2 : ℕ) : ℚ) * 12 else 0
    let temporal_bonus : ℚ :=
      if time_words.any (fun wrd => has_sub query wrd) then 15 else 0
    let numeric_bonus : ℚ :=
      if has_digit query || quantifier_words.any (fun wrd => has_sub query wrd) then 10 else 0
    min (20 + word_bonus + (technical_count : ℚ) * 8 + (logic_count : ℚ) * 10 +
         action_bonus + temporal_bonus + numeric_bonus) 100

/-- The amended closed form of the prompt-complexity score: identical to the
claim's formula except that the action-verb bonus is `(count − 1) × 12` when
more than two action verbs hit, as the source computes. -/
def prompt_complexity_formula (user_query : String) : ℚ :=
  let query := py_lower user_query
  if is_inferred_query query then 20
  else
    let wc := word_count query
    let word_bonus : ℚ := if 10 < wc then 25 else if 5 < wc then 15 else if 2 < wc then 5 else 0
    let technical_count := count_hits technical_indicators query
    let logic_count := count_hits complexity_indicators query
    let action_count := count_hits action_verbs query
    let action_bonus : ℚ :=
      if 2 < action_count then ((action_count - 1 : ℕ) : ℚ) * 12 else 0
    let temporal_bonus : ℚ :=
      if time_words.any (fun wrd => has_sub query wrd) then 15 else 0
    let numeric_bonus : ℚ :=
      if has_digit query || quantifier_words.any (fun wrd => has_sub query wrd) then 10 else 0
    min (20 + word_bonus + (technical_count : ℚ) * 8 + (logic_count : ℚ) * 10 +
         action_bonus + temporal_bonus + numeric_bonus) 100

/-! ## Config rewriter (`interceptors/mcp_proxy.py`, `MCPProxyManager`)

The host config file is a JSON document with an `mcpServers` mapping; it is
modelled as an association list of named `ServerEntry`s.  The interpreter
chosen by `_create_proxy_config` (`.venv/bin/python`, `python3` or `python`,
depending on the filesystem) is the parameter `python_cmd`; the working
directory default `str(Path.cwd())` is the parameter `default_cwd`. -/

/-- The module selector the proxy runner is launched with. -/
def runner_module : String := "mcp_audit.interceptors.mcp_proxy_runner"

structure ServerEntry where
  command : String
  args : List String
  cwd : Option String
  env : List (String × String)
deriving DecidableEq

structure MCPConfig where
  mcpServers : List (String × ServerEntry)
deriving DecidableEq

/-- `MCPProxyManager._is_already_proxied(server_config)`: the command is
`"python"` or ends in `/bin/python` or `/bin/python3`, and the first two args
are the `-m` module selector of the proxy runner. -/
def is_python_command (command : String) : Bool :=
  command == "python" || str_ends command "/bin/python" || str_ends command "/bin/python3"

def is_already_proxied (server_config : ServerEntry) : Bool :=
  is_python_command server_config.command &&
    match server_config.args with
    | a0 :: a1 :: _ => a0 == "-m" && a1 == runner_module
    | _ => false

/-- The per-entry rewrite of `MCPProxyManager._create_proxy_config`: an entry
detected as already proxied is returned unchanged (the manager logs and
skips); otherwise the entry is wrapped so that `python_cmd` runs the proxy
runner with the original command and args as `--target-command`/
`--target-args`, preserving the original working directory. -/
def create_proxy_entry (python_cmd server_name default_cwd : String)
    (original_server : ServerEntry) : ServerEntry :=
  if is_already_proxied original_server then original_server
  else
    let original_cwd := original_server.cwd.getD default_cwd
    { command := python_cmd
      args := ["-m", runner_module, "--target-command", original_server.command,
               "--target-args"] ++ original_server.args
      cwd := some original_cwd
      env := [("MCP_TARGET_CWD", original_cwd), ("MCP_SERVER_NAME", server_name)] }

/-- `MCPProxyManager._create_proxy_config(server_name)` on a loaded config:
rewrite the named server's entry, leave everything else unchanged. -/
def create_proxy_config (python_cmd server_name default_cwd : String)
    (config : MCPConfig) : MCPConfig :=
  ⟨config.mcpServers.map fun p =>
    if p.1 = server_name then (p.1, create_proxy_entry python_cmd server_name default_cwd p.2)
    else p⟩

/-- `MCPProxyManager.setup_proxy_for_server(server_name)` on a loaded config:
returns the Boolean result of the call (`True` on every non-exceptional path,
including the already-proxied skip) and the config contents written back. -/
def setup_proxy_for_server (python_cmd server_name default_cwd : String)
    (config : MCPConfig) : Bool × MCPConfig :=
  (true, create_proxy_config python_cmd server_name default_cwd config)

/-! ## Recursive-config unwrapping (`utils/fix_recursive_config.py`) -/

/-- Python `list.index(x)` as a total function: the first index of `x`
(`none` models `ValueError`). -/
def index_of_marker (marker : String) : List String → Option ℕ
  | [] => none
  | x :: xs => if x == marker then some 0 else (index_of_marker marker xs).map (· + 1)

/-- The peeling loop of `extract_original_from_proxy_args`.  `fuel` bounds the
number of loop iterations; every iteration strictly shrinks `current_args`
(it drops at least the leading `-m <module>` pair), so with the initial fuel
`args.length + 1` the fuel is never exhausted and the function computes
exactly the source loop.  The `(None, None, depth)` results model the
`ValueError`/`IndexError` handler; the final result models the post-loop
return `(current_args[0] or None, current_args[1:], depth)`. -/
def extract_original_aux : ℕ → List String → ℕ →
    Option String × Option (List String) × ℕ
  | 0, current_args, depth => (current_args.head?, some current_args.tail, depth)
  | fuel + 1, current_args, depth =>
    match current_args with
    | a0 :: a1 :: rest =>
      if a0 == "-m" && a1 == runner_module then
        match index_of_marker "--target-command" (a0 :: a1 :: rest),
              index_of_marker "--target-args" (a0 :: a1 :: rest) with
        | some target_cmd_idx, some target_args_idx =>
          match (a0 :: a1 :: rest).get? (target_cmd_idx + 1) with
          | some original_command =>
            let original_args := (a0 :: a1 :: rest).drop (target_args_idx + 1)
            if original_command == "python" && 2 ≤ original_args.length then
              extract_original_aux fuel original_args (depth + 1)
            else (some original_command, some original_args, depth + 1)
          | none => (none, none, depth + 1)
        | _, _ => (none, none, depth + 1)
      else (some a0, some (a1 :: rest), depth)
    | [a0] => (some a0, some [], depth)
    | [] => (none, some [], depth)

/-- `extract_original_from_proxy_args(args)`. -/
def extract_original_from_proxy_args (args : List String) :
    Option String × Option (List String) × ℕ :=
  extract_original_aux (args.length + 1) args 0

/-- One proxy wrapping layer as the rewriter produces it: the args list of an
entry whose target is `(inner_cmd, inner_args)`. -/
def proxy_wrap_args (inner_cmd : String) (inner_args : List String) : List String :=
  ["-m", runner_module, "--target-command", inner_cmd, "--target-args"] ++ inner_args

/-- The args list of a server entry proxy-wrapped to nesting depth `k ≥ 1`
over the original `(command, args)`: the innermost layer records the original
command, every further layer records the interpreter `"python"` of the entry
it re-wrapped. -/
def nested_proxy_args (command : String) (args : List String) : ℕ → List String
  | 0 => proxy_wrap_args command args
  | k + 1 => proxy_wrap_args "python" (nested_proxy_args command args k)

/-! ## Concrete inputs used by witnesses and counterexamples -/

/-- A minimal `mcp_audit` event at timestamp `t` (scenario S1 shape). -/
def mcp_event (t : ℚ) : TEvent :=
  { timestamp := t, source := "mcp_audit", serverName := some "weather",
    direction := some "llm→mcp_client", payload := .dict [], enhancedToolName := none,
    userPrompt := none, llmReasoning := none, success := false }

/-- Scenario S3 shape: two bursts of events separated by a 40-second pause
(window 30). -/
def ex_timeline_events : List TEvent :=
  [mcp_event 0, mcp_event 10, mcp_event 50, mcp_event 55]

/-- A `tools/call` request event carrying JSON-RPC `id` 1. -/
def ex_call_event : TEvent :=
  { timestamp := 0, source := "mcp_audit", serverName := some "weather",
    direction := some "llm→mcp_client",
    payload := .dict [("jsonrpc", .strv "2.0"), ("id", .num 1),
      ("method", .strv "tools/call"),
      ("params", .dict [("name", .strv "get_weather")])],
    enhancedToolName := some "get_weather", userPrompt := none, llmReasoning := none,
    success := false }

/-- A server→host result event whose JSON-RPC `id` is 2 — it is *not* a
response to `ex_call_event` (id 1), yet it carries a non-`None` `result`. -/
def ex_unrelated_response_event : TEvent :=
  { timestamp := 1/10, source := "mcp_audit", serverName := some "weather",
    direction := some "mcp_client→server",
    payload := .dict [("jsonrpc", .strv "2.0"), ("id", .num 2),
      ("result", .dict [("temp", .num 15)])],
    enhancedToolName := none, userPrompt := none, llmReasoning := none,
    success := false }

/-- The C3 counterexample flow: a `tools/call` with id 1 and a result whose id
is 2 (no corresponding response to the request exists). -/
def ex_flow_events : List TEvent := [ex_call_event, ex_unrelated_response_event]

/-- The response line of scenario S1 as read from the child's stdout. -/
def resp_line : String :=
  "\x7b\"jsonrpc\": \"2.0\", \"id\": 1, \"result\": \x7b\"temp\": 15\x7d\x7d"

/-- The parsed payload of `resp_line`. -/
def resp_payload : PVal :=
  .dict [("jsonrpc", .strv "2.0"), ("id", .num 1),
         ("result", .dict [("temp", .num 15)])]

/-- The trace `_capture_message` builds for `resp_line` captured at `0.12` s
(120 ms after the matching request at `0` s). -/
def resp_trace : TraceMsg :=
  { direction := "mcp_client→server", protocol := "JSON-RPC", payload := resp_payload,
    timestamp := 12/100, latencyMs := none, errorCode := none }

/-- An ordinary (unproxied) server entry. -/
def ex_server_entry : ServerEntry :=
  { command := "node", args := ["server.js"], cwd := none, env := [] }

/-- A one-server host config. -/
def ex_config : MCPConfig := ⟨[("mastra", ex_server_entry)]⟩

/-! # Theorems -/

/-! ## C1: transparent forwarding -/

/-- **C1.** On each forwarding path, the lines read (up to EOF, where
`readline` yields `""`) are written unchanged, in order, to the opposite
endpoint, and the strings handed to `_capture_message` for JSON parsing are
the stripped *copies* of those lines — the forwarded buffer itself is never
derived from the parse.  Hence the byte sequence each endpoint sends equals
the byte sequence the other receives. -/
theorem proxy_transparency (lines : List String) :
    forward_stdin_to_server lines =
      (lines.takeWhile (fun l => l != ""),
       (lines.takeWhile (fun l => l != "")).map py_strip) ∧
    forward_server_to_stdout lines =
      (lines.takeWhile (fun l => l != ""),
       (lines.takeWhile (fun l => l != "")).map py_strip) := by
  induction lines with
  | nil => simp [forward_stdin_to_server, forward_server_to_stdout]
  | cons line rest ih =>
    by_cases h : line = "" <;>
      simp [forward_stdin_to_server, forward_server_to_stdout, h, ih.1, ih.2]

/-! ## C2: flow boundaries (helper lemmas, then the theorem) -/

/-- Within-flow invariant of the grouping loop: if the running flow is gap-
chained, every emitted flow is gap-chained. -/
theorem group_aux_flows_chain (w : ℚ) (rest : List TEvent) :
    ∀ current, current.Chain' (fun a b => time_gap_seconds a b ≤ w) →
      ∀ f ∈ group_aux w current rest,
        f.Chain' (fun a b => time_gap_seconds a b ≤ w) := by
  induction rest with
  | nil =>
    intro current hc f hf
    simp only [group_aux] at hf
    split at hf
    · simp at hf
    · simp at hf
      exact hf ▸ hc
  | cons e rest ih =>
    intro current hc f hf
    simp only [group_aux] at hf
    cases hlast : current.getLast? with
    | none =>
      simp only [hlast] at hf
      exact ih [e] (List.chain'_singleton e) f hf
    | some lastE =>
      simp only [hlast] at hf
      split at hf
      · rcases List.mem_cons.mp hf with rfl | hf2
        · exact hc
        · exact ih [e] (List.chain'_singleton e) f hf2
      · refine ih (current ++ [e]) ?_ f hf
        rw [List.chain'_append]
        refine ⟨hc, List.chain'_singleton e, ?_⟩
        intro x hx y hy
        simp only [List.head?_cons, Option.mem_def, Option.some.injEq] at hy
        rw [hlast] at hx
        simp only [Option.mem_def, Option.some.injEq] at hx
        subst hx; subst hy
        linarith [not_lt.mp (by assumption : ¬ w < time_gap_seconds lastE e)]

/-- The first flow emitted from a nonempty running flow extends it, so its
head is the running flow's head. -/
theorem group_aux_first_flow (w : ℚ) (rest : List TEvent) :
    ∀ current, current ≠ [] →
      ∃ t fs, group_aux w current rest = (current ++ t) :: fs := by
  induction rest with
  | nil =>
    intro current hne
    refine ⟨[], [], ?_⟩
    simp only [group_aux]
    rw [if_neg (by simpa [List.isEmpty_iff] using hne)]
    simp
  | cons e rest ih =>
    intro current hne
    simp only [group_aux]
    cases hlast : current.getLast? with
    | none => exact absurd (List.getLast?_eq_none_iff.mp hlast) hne
    | some lastE =>
      dsimp only
      by_cases hgap : w < time_gap_seconds lastE e
      · rw [if_pos hgap]
        exact ⟨[], group_aux w [e] rest, by simp⟩
      · rw [if_neg hgap]
        obtain ⟨t, fs, heq⟩ := ih (current ++ [e]) (by simp)
        exact ⟨[e] ++ t, fs, by simpa [List.append_assoc] using heq⟩

/-- Boundary invariant of the grouping loop: consecutive emitted flows are
separated by a gap strictly above the window. -/
theorem group_aux_boundary (w : ℚ) (rest : List TEvent) :
    ∀ current, (group_aux w current rest).Chain'
      (fun f g => ∀ x ∈ f.getLast?, ∀ y ∈ g.head?, w < time_gap_seconds x y) := by
  induction rest with
  | nil =>
    intro current
    simp only [group_aux]
    split <;> simp
  | cons e rest ih =>
    intro current
    simp only [group_aux]
    cases hlast : current.getLast? with
    | none => exact ih [e]
    | some lastE =>
      dsimp only
      by_cases hgap : w < time_gap_seconds lastE e
      · rw [if_pos hgap]
        rw [List.chain'_cons']
        refine ⟨?_, ih [e]⟩
        intro g hg
        obtain ⟨t, fs, heq⟩ := group_aux_first_flow w rest [e] (by simp)
        rw [heq] at hg
        simp only [List.head?_cons, Option.mem_def, Option.some.injEq] at hg
        subst hg
        intro x hx y hy
        rw [hlast] at hx
        simp only [Option.mem_def, Option.some.injEq] at hx
        simp only [List.singleton_append, List.head?_cons, Option.mem_def,
          Option.some.injEq] at hy
        subst hx; subst hy
        exact hgap
      · rw [if_neg hgap]
        exact ih (current ++ [e])

/-- **C2.** For timestamp-sorted input, any two consecutive events grouped
into the same flow are at most `time_window_seconds` apart, and the last event
of a flow and the first event of the next flow are strictly more than
`time_window_seconds` apart.  (The grouping loop guarantees both properties
for arbitrary input; the sortedness hypothesis is the claim's.) -/
theorem flow_boundary (w : ℚ) (events : List TEvent)
    (_hsorted : events.Chain' fun a b => a.timestamp ≤ b.timestamp) :
    (∀ f ∈ group_event_runs w events,
      f.Chain' fun a b => time_gap_seconds a b ≤ w) ∧
    (group_event_runs w events).Chain'
      (fun f g => ∀ x ∈ f.getLast?, ∀ y ∈ g.head?, w < time_gap_seconds x y) := by
  exact ⟨group_aux_flows_chain w events [] (by simp), group_aux_boundary w events []⟩

/-- Witness for C2 at scenario-S3-shaped input: four sorted events at 0 s,
10 s, 50 s, 55 s with the default 30-second window (grouped as two flows with
a 40-second boundary gap). -/
theorem flow_boundary_witness :
    (group_event_runs 30 ex_timeline_events).Chain'
      (fun f g => ∀ x ∈ f.getLast?, ∀ y ∈ g.head?, 30 < time_gap_seconds x y) :=
  (flow_boundary 30 ex_timeline_events
    (by norm_num [ex_timeline_events, mcp_event, List.chain'_cons])).2

/-! ## C3: flow success -/

/-- **C3 counterexample.** A flow holding a `tools/call` request with id 1 and
an unrelated result event with id 2 has *no* corresponding response to the
request, yet the flow summary's `success` field is `true`:
`_determine_flow_success` accepts *any* server-direction event with a
non-`None` result, without matching ids.  The claim's iff is therefore false
at this input. -/
theorem flow_success_counterexample :
    ((create_flow_summary ex_flow_events).map FlowSummary.success) = some true ∧
    flow_success_per_claim ex_flow_events = false := by
  constructor
  · rfl
  · decide

/-- **C3 amended.** A flow's `success` is true iff some LLM decision event in
it has `success=true`, or the flow contains both a `tools/call` request and
*some* server-direction event whose payload has a non-`None` `result` — no
correspondence (id match) between request and response is required, and the
response's `error` field is not examined.  (`_create_flow_summary` sets the
summary's `success` field to exactly `determine_flow_success` of the flow's
events.) -/
theorem flow_success_amended (flow_events : List TEvent) :
    determine_flow_success flow_events = true ↔
      ((∃ e ∈ flow_events, e.source = "llm_decision" ∧ e.success = true) ∨
       ((∃ e ∈ flow_events, is_tools_call_request e = true) ∧
        (∃ e ∈ flow_events, dir_contains_server e = true ∧
          payload_has_result e.payload = true))) := by
  simp [determine_flow_success, List.any_eq_true, Bool.and_eq_true, beq_iff_eq]

/-! ## Bounds of the five sub-scores (shared helper lemmas) -/

theorem prompt_complexity_nonneg (q : String) :
    0 ≤ calculate_prompt_complexity q := by
  unfold calculate_prompt_complexity
  dsimp only
  split_ifs <;> positivity

theorem prompt_complexity_le (q : String) :
    calculate_prompt_complexity q ≤ 100 := by
  unfold calculate_prompt_complexity
  dsimp only
  split_ifs <;> norm_num

theorem context_switching_nonneg (it : Interaction) :
    0 ≤ calculate_context_switching it := by
  unfold calculate_context_switching
  dsimp only
  split_ifs <;> positivity

theorem context_switching_le (it : Interaction) :
    calculate_context_switching it ≤ 100 := by
  unfold calculate_context_switching
  dsimp only
  split_ifs <;> norm_num

theorem retry_frustration_nonneg (it : Interaction) :
    0 ≤ (calculate_retry_frustration it).1 := by
  unfold calculate_retry_frustration
  cases hl : it.totalLatencyMs <;> dsimp only <;> (try split_ifs) <;> positivity

theorem retry_frustration_le (it : Interaction) :
    (calculate_retry_frustration it).1 ≤ 100 := by
  unfold calculate_retry_frustration
  cases hl : it.totalLatencyMs <;> dsimp only <;> (try split_ifs) <;>
    exact min_le_right _ _

theorem configuration_friction_nonneg (it : Interaction) :
    0 ≤ (calculate_configuration_friction it).1 := by
  unfold calculate_configuration_friction
  cases hl : it.totalLatencyMs <;> dsimp only <;> (try split_ifs) <;> positivity

theorem configuration_friction_le (it : Interaction) :
    (calculate_configuration_friction it).1 ≤ 100 := by
  unfold calculate_configuration_friction
  cases hl : it.totalLatencyMs <;> dsimp only <;> (try split_ifs) <;>
    exact min_le_right _ _

theorem integration_cognition_nonneg (it : Interaction) :
    0 ≤ calculate_integration_cognition it := by
  unfold calculate_integration_cognition
  dsimp only
  split_ifs <;> positivity

theorem integration_cognition_le (it : Interaction) :
    calculate_integration_cognition it ≤ 100 := by
  unfold calculate_integration_cognition
  dsimp only
  split_ifs <;> exact min_le_right _ _

/-! ## C4: the overall score is the weighted sum and the weights sum to 1 -/

/-- **C4.** For every scored interaction the overall cognitive-load score
equals `prompt*0.15 + context*0.20 + retry*0.30 + config*0.25 +
integration*0.10` (the `min(·, 100)` cap never bites because every sub-score
is at most 100 and the weights sum to 1), and the five weights sum to exactly
1. -/
theorem overall_weighted_sum (it : Interaction) :
    (analyze_interaction it).overallScore =
      (analyze_interaction it).promptComplexity * weight_prompt_complexity +
      (analyze_interaction it).contextSwitching * weight_context_switching +
      (analyze_interaction it).retryFrustration * weight_retry_frustration +
      (analyze_interaction it).configurationFriction * weight_configuration_friction +
      (analyze_interaction it).integrationCognition * weight_integration_cognition ∧
    weight_prompt_complexity + weight_context_switching + weight_retry_frustration +
      weight_configuration_friction + weight_integration_cognition = 1 := by
  refine ⟨?_, by norm_num [weight_prompt_complexity, weight_context_switching,
    weight_retry_frustration, weight_configuration_friction,
    weight_integration_cognition]⟩
  have h1 := prompt_complexity_le it.userQuery
  have h2 := context_switching_le it
  have h3 := retry_frustration_le it
  have h4 := configuration_friction_le it
  have h5 := integration_cognition_le it
  unfold analyze_interaction calculate_overall_cognitive_load
  dsimp only
  rw [min_eq_left]
  simp only [weight_prompt_complexity, weight_context_switching,
    weight_retry_frustration, weight_configuration_friction,
    weight_integration_cognition]
  linarith

/-! ## C5: score bounds and the letter grade -/

/-- **C5.** For every scored interaction the five sub-scores and the overall
score all lie in `[0, 100]`, and the letter grade is the stated function of
the overall score alone: `A` iff `≤ 20`, `B` iff in `(20, 40]`, `C` iff in
`(40, 60]`, `D` iff in `(60, 80]`, `F` otherwise. -/
theorem score_bounds_and_grade (it : Interaction) (o : ℚ) :
    ((0 ≤ (analyze_interaction it).promptComplexity ∧
        (analyze_interaction it).promptComplexity ≤ 100) ∧
     (0 ≤ (analyze_interaction it).contextSwitching ∧
        (analyze_interaction it).contextSwitching ≤ 100) ∧
     (0 ≤ (analyze_interaction it).retryFrustration ∧
        (analyze_interaction it).retryFrustration ≤ 100) ∧
     (0 ≤ (analyze_interaction it).configurationFriction ∧
        (analyze_interaction it).configurationFriction ≤ 100) ∧
     (0 ≤ (analyze_interaction it).integrationCognition ∧
        (analyze_interaction it).integrationCognition ≤ 100) ∧
     (0 ≤ (analyze_interaction it).overallScore ∧
        (analyze_interaction it).overallScore ≤ 100)) ∧
    ((grade_of o = "A" ↔ o ≤ 20) ∧
     (grade_of o = "B" ↔ 20 < o ∧ o ≤ 40) ∧
     (grade_of o = "C" ↔ 40 < o ∧ o ≤ 60) ∧
     (grade_of o = "D" ↔ 60 < o ∧ o ≤ 80) ∧
     (grade_of o = "F" ↔ 80 < o)) := by
  have hov_nonneg : 0 ≤ (analyze_interaction it).overallScore := by
    have hn1 := prompt_complexity_nonneg it.userQuery
    have hn2 := context_switching_nonneg it
    have hn3 := retry_frustration_nonneg it
    have hn4 := configuration_friction_nonneg it
    have hn5 := integration_cognition_nonneg it
    unfold analyze_interaction calculate_overall_cognitive_load
    dsimp only
    refine le_min ?_ (by norm_num)
    simp only [weight_prompt_complexity, weight_context_switching,
      weight_retry_frustration, weight_configuration_friction,
      weight_integration_cognition]
    linarith
  have hov_le : (analyze_interaction it).overallScore ≤ 100 := by
    unfold analyze_interaction calculate_overall_cognitive_load
    dsimp only
    exact min_le_right _ _
  refine ⟨⟨⟨prompt_complexity_nonneg it.userQuery, prompt_complexity_le it.userQuery⟩,
    ⟨context_switching_nonneg it, context_switching_le it⟩,
    ⟨retry_frustration_nonneg it, retry_frustration_le it⟩,
    ⟨configuration_friction_nonneg it, configuration_friction_le it⟩,
    ⟨integration_cognition_nonneg it, integration_cognition_le it⟩,
    ⟨hov_nonneg, hov_le⟩⟩, ?_⟩
  unfold grade_of
  split_ifs with h1 h2 h3 h4
  all_goals try rw [not_le] at h1
  all_goals try rw [not_le] at h2
  all_goals try rw [not_le] at h3
  all_goals try rw [not_le] at h4
  all_goals
    refine ⟨⟨fun hh => ?_, fun hh => ?_⟩, ⟨fun hh => ?_, fun hh => ?_⟩,
      ⟨fun hh => ?_, fun hh => ?_⟩, ⟨fun hh => ?_, fun hh => ?_⟩,
      ⟨fun hh => ?_, fun hh => ?_⟩⟩
  all_goals first
    | rfl
    | assumption
    | exact absurd hh (by decide)
    | exact ⟨by linarith, by linarith⟩
    | (exfalso; rcases hh with ⟨hh1, hh2⟩; linarith)
    | (exfalso; linarith)

/-! ## C6: latency of captured events -/

/-- **C6 counterexample.** A request with id 1 is captured at `t = 0` s and
the matching response (id 1, `resp_line`) at `t = 0.12` s on the opposite
path; the claim requires the persisted response record to carry
`latency_ms = 120`.  The capture path builds every trace with
`latency_ms=None` and the audit callback copies it verbatim, so the persisted
field is `None`, not 120 — no request/response matching happens at capture. -/
theorem latency_matching_counterexample :
    (capture_message resp_line (some resp_payload) (12/100) "mcp_client→server").map
        (fun tr => (enhanced_audit_message_callback tr "weather" 7).latencyMs) ≠
      some (some 120) ∧
    (capture_message resp_line (some resp_payload) (12/100) "mcp_client→server").map
        (fun tr => (enhanced_audit_message_callback tr "weather" 7).latencyMs) =
      some none := by
  exact ⟨by decide, rfl⟩

/-- **C6 amended.** Every trace the proxy capture path produces has
`latency_ms = None`, and the persisted audit record copies that `None`
verbatim: no latency is ever computed from a matching request at capture
time. -/
theorem capture_latency_always_none (message : String) (parsed : Option PVal)
    (now : ℚ) (direction server_name : String) (pid : ℕ) (tr : TraceMsg)
    (h : capture_message message parsed now direction = some tr) :
    tr.latencyMs = none ∧
    (enhanced_audit_message_callback tr server_name pid).latencyMs = none := by
  unfold capture_message at h
  by_cases hb : py_strip message = ""
  · rw [if_pos hb] at h
    exact absurd h (by simp)
  · rw [if_neg hb] at h
    cases parsed with
    | none => exact absurd h (by simp)
    | some json_data =>
      rw [Option.some_inj] at h
      subst h
      exact ⟨rfl, rfl⟩

/-- Witness for C6-amended at the concrete response capture of `resp_line`. -/
theorem capture_latency_witness :
    resp_trace.latencyMs = none ∧
    (enhanced_audit_message_callback resp_trace "weather" 7).latencyMs = none :=
  capture_latency_always_none resp_line (some resp_payload) (12/100)
    "mcp_client→server" "weather" 7 resp_trace (by rfl)

/-! ## C7: idempotent install and the recursion guard -/

/-- A detected (already-proxied) entry is returned unchanged. -/
theorem create_proxy_entry_skip (python_cmd server_name default_cwd : String)
    (e : ServerEntry) (hp : is_already_proxied e = true) :
    create_proxy_entry python_cmd server_name default_cwd e = e := by
  unfold create_proxy_entry
  rw [if_pos hp]

/-- An entry freshly wrapped with a guard-recognised interpreter is detected
by the recursion guard. -/
theorem create_proxy_entry_detected (python_cmd server_name default_cwd : String)
    (h : is_python_command python_cmd = true) (e : ServerEntry)
    (hp : is_already_proxied e = false) :
    is_already_proxied
        (create_proxy_entry python_cmd server_name default_cwd e) = true := by
  unfold create_proxy_entry
  rw [if_neg (by simp [hp])]
  unfold is_already_proxied
  simp [h]

/-- Wrapping with a guard-recognised interpreter is idempotent at the entry
level. -/
theorem create_proxy_entry_idem (python_cmd server_name default_cwd : String)
    (h : is_python_command python_cmd = true) (e : ServerEntry) :
    create_proxy_entry python_cmd server_name default_cwd
        (create_proxy_entry python_cmd server_name default_cwd e) =
      create_proxy_entry python_cmd server_name default_cwd e := by
  by_cases hp : is_already_proxied e = true
  · have he := create_proxy_entry_skip python_cmd server_name default_cwd e hp
    rw [he]
    exact he
  · exact create_proxy_entry_skip python_cmd server_name default_cwd _
      (create_proxy_entry_detected python_cmd server_name default_cwd h e
        (by simpa using hp))

/-- **C7 counterexample.** `_create_proxy_config` may select `python3` as the
interpreter (no venv, `python3` on PATH); `_is_already_proxied` does not
recognise the bare `python3` command, so a second `install` re-wraps the
entry: the second call still reports success (`True`) and *changes* the
config contents, instead of failing with `already_proxied` and leaving them
unchanged.  The wrapped entry also shows the claim's detection rule is wrong:
its command `python3` is a Python-compatible interpreter path and its first
two args are the module selector, yet detection yields `false`. -/
theorem install_twice_counterexample :
    is_already_proxied (create_proxy_entry "python3" "mastra" "/w" ex_server_entry) = false ∧
    (create_proxy_entry "python3" "mastra" "/w" ex_server_entry).args.take 2 =
      ["-m", runner_module] ∧
    (setup_proxy_for_server "python3" "mastra" "/w"
        (setup_proxy_for_server "python3" "mastra" "/w" ex_config).2).1 = true ∧
    (setup_proxy_for_server "python3" "mastra" "/w"
        (setup_proxy_for_server "python3" "mastra" "/w" ex_config).2).2 ≠
      (setup_proxy_for_server "python3" "mastra" "/w" ex_config).2 := by
  exact ⟨by decide, by decide, rfl, by decide⟩

/-- **C7 amended.** When the selected interpreter is one the guard
recognises (`python`, or a path ending in `/bin/python` or `/bin/python3`),
a second `install` without an intervening `restore` detects the entry as
already proxied, reports success (`True`) — it does **not** fail — and leaves
the written config contents unchanged.  An entry counts as already proxied
iff its command is in that recognised interpreter set (bare `python3` is
*not* recognised) and its first two args are
`-m mcp_audit.interceptors.mcp_proxy_runner`. -/
theorem proxy_install_idempotent (python_cmd server_name default_cwd : String)
    (config : MCPConfig) (h : is_python_command python_cmd = true) :
    setup_proxy_for_server python_cmd server_name default_cwd
        (setup_proxy_for_server python_cmd server_name default_cwd config).2 =
      (true, (setup_proxy_for_server python_cmd server_name default_cwd config).2) ∧
    (∀ e : ServerEntry, is_already_proxied e = true ↔
      (is_python_command e.command = true ∧
       ∃ rest, e.args = "-m" :: runner_module :: rest)) := by
  constructor
  · unfold setup_proxy_for_server create_proxy_config
    dsimp only
    simp only [Prod.mk.injEq, true_and, MCPConfig.mk.injEq]
    rw [List.map_map]
    refine List.map_congr_left fun p _ => ?_
    rcases p with ⟨name, entry⟩
    dsimp only [Function.comp]
    by_cases hn : name = server_name
    · rw [if_pos hn]
      dsimp only
      rw [if_pos hn]
      simp only [Prod.mk.injEq, true_and]
      exact create_proxy_entry_idem python_cmd server_name default_cwd h entry
    · rw [if_neg hn, if_neg hn]
  · intro e
    unfold is_already_proxied
    cases hargs : e.args with
    | nil => simp
    | cons a0 tail =>
      cases tail with
      | nil => simp
      | cons a1 rest =>
        simp only [Bool.and_eq_true, beq_iff_eq]
        constructor
        · rintro ⟨hc, h0, h1⟩
          exact ⟨hc, rest, by rw [h0, h1]⟩
        · rintro ⟨hc, r, hr⟩
          rw [List.cons.injEq, List.cons.injEq] at hr
          exact ⟨hc, hr.1, hr.2.1⟩

/-- Witness for C7-amended: double install with interpreter `python` on the
one-server example config leaves the written contents unchanged and reports
success. -/
theorem proxy_install_idempotent_witness :
    setup_proxy_for_server "python" "mastra" "/w"
        (setup_proxy_for_server "python" "mastra" "/w" ex_config).2 =
      (true, (setup_proxy_for_server "python" "mastra" "/w" ex_config).2) :=
  (proxy_install_idempotent "python" "mastra" "/w" ex_config (by decide)).1

/-! ## C8: recursive unwrapping -/

/-- `--target-command` sits at index 2 of a wrapping layer. -/
theorem index_tc (c : String) (a : List String) :
    index_of_marker "--target-command"
      ("-m" :: runner_module :: "--target-command" :: c :: "--target-args" :: a) =
      some 2 := by
  simp [index_of_marker, runner_module]

/-- `--target-args` sits at index 4 of a wrapping layer (first occurrence,
provided the recorded command is not itself the marker). -/
theorem index_ta (c : String) (a : List String) (h : c ≠ "--target-args") :
    index_of_marker "--target-args"
      ("-m" :: runner_module :: "--target-command" :: c :: "--target-args" :: a) =
      some 4 := by
  simp [index_of_marker, runner_module, h]

/-- One iteration of the peeling loop on a wrapping layer: peel off the layer
and either continue (recorded command `python` with at least two remaining
args) or return the recorded command and args with the depth incremented. -/
theorem extract_aux_wrap_step (fuel d : ℕ) (c : String) (a : List String)
    (hta : c ≠ "--target-args") :
    extract_original_aux (fuel + 1) (proxy_wrap_args c a) d =
      if c == "python" && 2 ≤ a.length then extract_original_aux fuel a (d + 1)
      else (some c, some a, d + 1) := by
  have h1 := index_tc c a
  have h2 := index_ta c a hta
  simp only [proxy_wrap_args, List.cons_append, List.nil_append]
  simp only [extract_original_aux, h1, h2]
  norm_num [List.get?]

theorem nested_proxy_args_two_le (c : String) (a : List String) (k : ℕ) :
    2 ≤ (nested_proxy_args c a k).length := by
  cases k <;> simp [nested_proxy_args, proxy_wrap_args]

theorem nested_proxy_args_length (c : String) (a : List String) :
    ∀ k, (nested_proxy_args c a k).length = 5 * (k + 1) + a.length := by
  intro k
  induction k with
  | zero =>
    simp [nested_proxy_args, proxy_wrap_args]
    omega
  | succ k ih =>
    simp [nested_proxy_args, proxy_wrap_args, ih]
    omega

/-- The peeling loop on a depth-`(k+1)` nesting consumes one layer per
iteration and returns the original command, the original args and the nesting
depth, for any sufficient fuel. -/
theorem extract_aux_nested (c : String) (a : List String)
    (hc : c ≠ "python" ∨ a.length < 2) (hta : c ≠ "--target-args") :
    ∀ (k fuel d : ℕ), k < fuel →
      extract_original_aux fuel (nested_proxy_args c a k) d =
        (some c, some a, d + (k + 1)) := by
  intro k
  induction k with
  | zero =>
    intro fuel d hf
    obtain ⟨f, rfl⟩ : ∃ f, fuel = f + 1 := ⟨fuel - 1, by omega⟩
    rw [show nested_proxy_args c a 0 = proxy_wrap_args c a from rfl]
    rw [extract_aux_wrap_step f d c a hta]
    rw [if_neg ?hcond]
    case hcond =>
      simp only [Bool.and_eq_true, beq_iff_eq, decide_eq_true_eq, not_and]
      intro hcp
      rcases hc with hc | hc
      · exact absurd hcp hc
      · omega
  | succ k ih =>
    intro fuel d hf
    obtain ⟨f, rfl⟩ : ∃ f, fuel = f + 1 := ⟨fuel - 1, by omega⟩
    rw [show nested_proxy_args c a (k + 1) =
        proxy_wrap_args "python" (nested_proxy_args c a k) from rfl]
    rw [extract_aux_wrap_step f d "python" (nested_proxy_args c a k) (by decide)]
    rw [if_pos ?hcond2]
    case hcond2 =>
      simp only [Bool.and_eq_true, beq_iff_eq, decide_eq_true_eq, true_and]
      exact nested_proxy_args_two_le c a k
    rw [ih f (d + 1) (by omega)]
    rw [show d + 1 + (k + 1) = d + (k + 1 + 1) from by omega]

/-- **C8 counterexample.** Wrap (at depth 1) the server launched as
`python -m weather_server`.  The unwrap routine peels the layer, sees the
recorded command `python` with two remaining args, loops once more, and
falls out of the loop returning command `-m` and args `["weather_server"]` —
not the original command `python` with args `["-m", "weather_server"]`. -/
theorem unwrap_counterexample :
    extract_original_from_proxy_args
        (nested_proxy_args "python" ["-m", "weather_server"] 0) ≠
      (some "python", some ["-m", "weather_server"], 1) ∧
    extract_original_from_proxy_args
        (nested_proxy_args "python" ["-m", "weather_server"] 0) =
      (some "-m", some ["weather_server"], 1) := by
  exact ⟨by decide, by decide⟩

/-- **C8 amended.** For a server entry proxy-wrapped to nesting depth
`k ≥ 1` — every layer above the first recording the interpreter `python` —
the unwrap routine returns the original command and original args after
exactly `k` peelings, *provided* the original command is not itself `python`
with two or more original args (that case re-enters the loop and corrupts
the result) and is not the literal marker `--target-args`. -/
theorem unwrap_nested_proxy (c : String) (a : List String) (k : ℕ) (hk : 1 ≤ k)
    (hc : c ≠ "python" ∨ a.length < 2) (hta : c ≠ "--target-args") :
    extract_original_from_proxy_args (nested_proxy_args c a (k - 1)) =
      (some c, some a, k) := by
  unfold extract_original_from_proxy_args
  rw [extract_aux_nested c a hc hta (k - 1) _ 0
    (by rw [nested_proxy_args_length c a (k - 1)]; omega)]
  rw [show 0 + (k - 1 + 1) = k from by omega]

/-- Witness for C8-amended at depth 1 over the server `node server.js`. -/
theorem unwrap_nested_proxy_witness :
    extract_original_from_proxy_args (nested_proxy_args "node" ["server.js"] 0) =
      (some "node", some ["server.js"], 1) :=
  unwrap_nested_proxy "node" ["server.js"] 1 (by decide) (Or.inl (by decide))
    (by decide)

/-! ## C9: prompt complexity -/

/-- **C9 counterexample.** The prompt `"create send move books"` has four
words (word bonus +5) and hits exactly three action verbs (`create`, `send`,
`move`) and no technical, logic, temporal or quantifier term.  The source
adds `(3 − 1) × 12 = 24`, giving 49; the claim's "+12 per action-verb hit
beyond 2" gives `(3 − 2) × 12 = 12`, i.e. 37. -/
theorem prompt_complexity_counterexample :
    calculate_prompt_complexity "create send move books" = 49 ∧
    prompt_complexity_per_claim "create send move books" = 37 ∧
    calculate_prompt_complexity "create send move books" ≠
      prompt_complexity_per_claim "create send move books" := by
  have hq : py_lower "create send move books" = "create send move books" := by decide
  have hinf : is_inferred_query "create send move books" = false := by decide
  have hwc : word_count "create send move books" = 4 := by decide
  have htech : count_hits technical_indicators "create send move books" = 0 := by decide
  have hlogic : count_hits complexity_indicators "create send move books" = 0 := by
    decide
  have hact : count_hits action_verbs "create send move books" = 3 := by decide
  have htime : (time_words.any fun wrd =>
      has_sub "create send move books" wrd) = false := by decide
  have hdig : has_digit "create send move books" = false := by decide
  have hquant : (quantifier_words.any fun wrd =>
      has_sub "create send move books" wrd) = false := by decide
  have h1 : calculate_prompt_complexity "create send move books" = 49 := by
    unfold calculate_prompt_complexity
    simp only [hq, hinf, hwc, htech, hlogic, hact, htime, hdig, hquant]
    norm_num
  have h2 : prompt_complexity_per_claim "create send move books" = 37 := by
    unfold prompt_complexity_per_claim
    simp only [hq, hinf, hwc, htech, hlogic, hact, htime, hdig, hquant]
    norm_num
  exact ⟨h1, h2, by rw [h1, h2]; norm_num⟩

/-- **C9 amended.** For every non-inferred, non-placeholder prompt the
sub-score equals `min(100, 20 + word-count bonus + 8·technical + 10·logic +
action bonus + 15·temporal + 10·numeric)`, where the action bonus is
`(hits − 1) × 12` whenever more than two action verbs hit (not
`(hits − 2) × 12`); every inferred or placeholder prompt scores exactly 20. -/
theorem prompt_complexity_formula_correct (user_query : String) :
    calculate_prompt_complexity user_query = prompt_complexity_formula user_query := by
  unfold calculate_prompt_complexity prompt_complexity_formula
  dsimp only
  split_ifs <;> ring_nf

/-! ## C10: timeline-derived interactions carry no retries and no errors -/

/-- **C10.** Every interaction produced by the timeline flow-to-interaction
conversion has `retry_count = 0` and all its message traces have
`error_code = None`; consequently the scorer's retry penalty, hard-error
penalty, authentication penalty, validation penalty and config-keyword
penalty are all zero on such interactions. -/
theorem timeline_interactions_no_retry_no_errors (flow : FlowSummary) :
    (convert_flow_to_interaction flow).retryCount = 0 ∧
    ((convert_flow_to_interaction flow).messageTraces.all
      fun m => m.errorCode.isNone) = true ∧
    (calculate_retry_frustration (convert_flow_to_interaction flow)).2.retryPenalty = 0 ∧
    (calculate_retry_frustration (convert_flow_to_interaction flow)).2.errorPenalty = 0 ∧
    (calculate_configuration_friction (convert_flow_to_interaction flow)).2.authPenalty = 0 ∧
    (calculate_configuration_friction (convert_flow_to_interaction flow)).2.paramPenalty = 0 ∧
    (calculate_configuration_friction
      (convert_flow_to_interaction flow)).2.configKeywordPenalty = 0 := by
  have htr : ∀ m ∈ (convert_flow_to_interaction flow).messageTraces,
      m.errorCode = none := by
    intro m hm
    unfold convert_flow_to_interaction at hm
    dsimp only at hm
    split at hm <;> split at hm <;>
      first
        | (simp only [List.mem_singleton] at hm; rw [hm])
        | (simp only [List.mem_map] at hm; obtain ⟨call, _, rfl⟩ := hm; rfl)
  have hrc : (convert_flow_to_interaction flow).retryCount = 0 := rfl
  have hcount : ∀ (p : TraceMsg → Bool), (∀ m, m.errorCode = none → p m = false) →
      (convert_flow_to_interaction flow).messageTraces.countP p = 0 := by
    intro p hp
    rw [List.countP_eq_zero]
    intro m hm
    rw [hp m (htr m hm)]
    simp
  refine ⟨hrc, ?_, ?_, ?_, ?_, ?_, ?_⟩
  · rw [List.all_eq_true]
    intro m hm
    rw [htr m hm]
    rfl
  · unfold calculate_retry_frustration
    dsimp only
    rw [hrc]
    simp
  · unfold calculate_retry_frustration
    dsimp only
    rw [hcount _ (fun m hm => by rw [hm]; rfl)]
    simp
  · unfold calculate_configuration_friction
    dsimp only
    rw [hcount _ (fun m hm => by rw [hm]; rfl)]
    simp
  · unfold calculate_configuration_friction
    dsimp only
    rw [hcount _ (fun m hm => by rw [hm]; rfl)]
    simp
  · unfold calculate_configuration_friction
    dsimp only
    rw [hcount _ (fun m hm => by unfold config_keyword_hit; rw [hm]; rfl)]
    simp

end McpAudit
